import Mathlib

/-!
Verification of the graph-derivation layer of `knowledge_graph.py`.

The file shallowly embeds the `MemoryDB` class: the SQLite store becomes a
`Store` of row lists plus the table-availability flags computed at open time,
and each derivation method (`get_stats`, `get_entities`, `get_top_entities`,
`get_relations`, `get_co_occurrences`, `get_timeline`, `get_entity_detail`)
becomes a pure function over `Store` mirroring the SQL it issues.

SQL semantics captured here:
* `ORDER BY col DESC` over TEXT columns is lexicographic comparison of code
  points (SQLite BINARY collation), embedded as `chLe` / `descStr`;
* `SUBSTR(x, 1, n)` is a prefix of the first `n` characters (`strTake`);
* scalar subqueries that select no row yield NULL, embedded as `Option`;
* `LIKE` is case-insensitive on ASCII letters and treats `%` and `_` as
  wildcards (`likeMatch`), matching SQLite's default behavior;
* `GROUP BY` tallies are embedded by deduplicating the key list and counting
  the rows sharing each key; the order SQLite emits groups in is unspecified,
  so the embedding fixes one order (the claims do not depend on it);
* a bare (non-aggregated) column in a grouped select takes its value from one
  member row of the group; the embedding takes the first member.
-/

/-- Lexicographic comparison of char lists by code point: the order SQLite's
BINARY collation (used by `ORDER BY` on TEXT) and Python string comparison
induce. -/
def chLe : List Char → List Char → Bool
  | [], _ => true
  | _ :: _, [] => false
  | a :: as, b :: bs =>
    if a.toNat < b.toNat then true
    else if b.toNat < a.toNat then false
    else chLe as bs

theorem chLe_total (a b : List Char) : chLe a b = true ∨ chLe b a = true := by
  induction a generalizing b with
  | nil => left; rfl
  | cons x xs ih =>
    cases b with
    | nil => right; rfl
    | cons y ys =>
      by_cases h1 : x.toNat < y.toNat
      · left; simp [chLe, h1]
      · by_cases h2 : y.toNat < x.toNat
        · right; simp [chLe, h2]
        · rcases ih ys with h | h
          · left; simp [chLe, h1, h2, h]
          · right; simp [chLe, h1, h2, h]

theorem chLe_trans {a b c : List Char} (h1 : chLe a b = true) (h2 : chLe b c = true) :
    chLe a c = true := by
  induction a generalizing b c with
  | nil => rfl
  | cons x xs ih =>
    cases b with
    | nil => simp [chLe] at h1
    | cons y ys =>
      cases c with
      | nil => simp [chLe] at h2
      | cons z zs =>
        simp only [chLe] at h1 h2 ⊢
        split at h1
        · rename_i hxy
          split at h2
          · rename_i hyz; simp [show x.toNat < z.toNat by omega]
          · split at h2
            · simp at h2
            · rename_i hyz hzy
              simp [show x.toNat < z.toNat by omega]
        · split at h1
          · simp at h1
          · rename_i hxy hyx
            split at h2
            · rename_i hyz; simp [show x.toNat < z.toNat by omega]
            · split at h2
              · simp at h2
              · rename_i hyz hzy
                simp only [show ¬ x.toNat < z.toNat by omega, if_false,
                  show ¬ z.toNat < x.toNat by omega]
                exact ih h1 h2

/-- String comparison used for the `ORDER BY ... DESC` embeddings. -/
def strLe (a b : String) : Prop := chLe a.data b.data = true

instance : DecidableRel strLe := fun _ _ => inferInstanceAs (Decidable (_ = true))

/-- Descending order on a `String`-valued sort key, as in `ORDER BY key DESC`. -/
def descStr {α : Type} (f : α → String) (a b : α) : Prop := strLe (f b) (f a)

instance {α : Type} (f : α → String) : DecidableRel (descStr f) :=
  fun a b => inferInstanceAs (Decidable (strLe (f b) (f a)))

instance {α : Type} (f : α → String) : IsTotal α (descStr f) :=
  ⟨fun a b => chLe_total (f b).data (f a).data⟩

instance {α : Type} (f : α → String) : IsTrans α (descStr f) :=
  ⟨fun _ _ _ h1 h2 => chLe_trans h2 h1⟩

/-- Descending order on a `Nat`-valued sort key, as in `ORDER BY count DESC`. -/
def descNat {α : Type} (f : α → Nat) (a b : α) : Prop := f b ≤ f a

instance {α : Type} (f : α → Nat) : DecidableRel (descNat f) :=
  fun a b => inferInstanceAs (Decidable (f b ≤ f a))

instance {α : Type} (f : α → Nat) : IsTotal α (descNat f) :=
  ⟨fun a b => Nat.le_total (f b) (f a)⟩

instance {α : Type} (f : α → Nat) : IsTrans α (descNat f) :=
  ⟨fun _ _ _ h1 h2 => Nat.le_trans h2 h1⟩

/-- Embedding of SQL `SUBSTR(s, 1, n)`: the first `n` characters of `s`. -/
def strTake (n : Nat) (s : String) : String := ⟨s.data.take n⟩

theorem strTake_length_le (n : Nat) (s : String) : (strTake n s).length ≤ n := by
  show (s.data.take n).length ≤ n
  rw [List.length_take]
  exact min_le_left _ _

/-- ASCII lower-casing of one character, the folding SQLite's default `LIKE`
applies to both pattern and subject. -/
def lowerChar (c : Char) : Char :=
  if 65 ≤ c.toNat && c.toNat ≤ 90 then Char.ofNat (c.toNat + 32) else c

/-- All suffixes of a list, longest first. -/
def tails {α : Type} : List α → List (List α)
  | [] => [[]]
  | a :: as => (a :: as) :: tails as

/-- Embedding of SQLite `LIKE`: `%` matches any sequence, `_` any single
character, and plain characters compare ASCII-case-insensitively. -/
def likeMatch : List Char → List Char → Bool
  | [], s => s.isEmpty
  | '%' :: ps, s => (tails s).any (fun t => likeMatch ps t)
  | '_' :: ps, s =>
    match s with
    | [] => false
    | _ :: rest => likeMatch ps rest
  | p :: ps, s =>
    match s with
    | [] => false
    | c :: rest => (lowerChar p == lowerChar c) && likeMatch ps rest

/-- The pattern the code builds for entity lookups: `LIKE '%' || q || '%'`. -/
def likePat (q : String) : List Char := '%' :: (q.data ++ ['%'])

/-- Case-sensitive prefix test over char lists (used only to state what a
case-sensitive substring check would say). -/
def isPrefixChk : List Char → List Char → Bool
  | [], _ => true
  | _ :: _, [] => false
  | a :: as, b :: bs => (a == b) && isPrefixChk as bs

/-- Case-sensitive substring test over char lists. -/
def isSubstrChk (q s : List Char) : Bool := (tails s).any (fun t => isPrefixChk q t)

/-- Cartesian product of two lists, the row pairs a self-`JOIN` ranges over. -/
def allPairs {α β : Type} (xs : List α) (ys : List β) : List (α × β) :=
  xs.flatMap (fun a => ys.map (fun b => (a, b)))

theorem mem_allPairs {α β : Type} {xs : List α} {ys : List β} {p : α × β}
    (h : p ∈ allPairs xs ys) : p.1 ∈ xs ∧ p.2 ∈ ys := by
  rcases List.mem_flatMap.mp h with ⟨a, ha, hp⟩
  rcases List.mem_map.mp hp with ⟨b, hb, rfl⟩
  exact ⟨ha, hb⟩

/-! ## Data model: the backing rows and the store -/

/-- One row of the `sessions` table. -/
structure SessionRow where
  id : Nat
  created_at : String
  summary : String
deriving DecidableEq

/-- One row of the `knowledge` table. -/
structure KnowledgeRow where
  id : Nat
  area : String
  summary : String
  updated_at : String
deriving DecidableEq

/-- One row of the `facts` table. -/
structure FactRow where
  id : Nat
  fact : String
deriving DecidableEq

/-- One row of the `entity_metadata` table: a recorded entity mention. -/
structure MentionRow where
  id : Nat
  entity : String
  entity_type : String
  source_type : String
  source_id : Nat
  created_at : String
deriving DecidableEq

/-- One row of the `entry_relations` table: an explicit directed edge. -/
structure RelationRow where
  from_type : String
  from_id : Nat
  to_type : String
  to_id : Nat
  relation : String
  created_at : String
deriving DecidableEq

/-- The table-availability flags `_ensure_tables_exist` computes at open
time by inspecting `sqlite_master`. -/
structure TableFlags where
  sessions : Bool
  knowledge : Bool
  facts : Bool
  entity_metadata : Bool
  entry_relations : Bool
  memory_fts : Bool
deriving DecidableEq

/-- The backing store a `MemoryDB` connection sees: the rows of each table
plus the availability flags. -/
structure Store where
  tables : TableFlags
  sessions : List SessionRow
  knowledge : List KnowledgeRow
  facts : List FactRow
  entity_metadata : List MentionRow
  entry_relations : List RelationRow
deriving DecidableEq

/-! ## get_stats -/

/-- Embedding of `MemoryDB.get_stats`: per-table row counts, zero for
unavailable tables. -/
def get_stats (s : Store) : List (String × Nat) :=
  [("sessions", if s.tables.sessions then s.sessions.length else 0),
   ("knowledge", if s.tables.knowledge then s.knowledge.length else 0),
   ("facts", if s.tables.facts then s.facts.length else 0),
   ("entity_metadata", if s.tables.entity_metadata then s.entity_metadata.length else 0),
   ("entry_relations", if s.tables.entry_relations then s.entry_relations.length else 0)]

/-! ## get_entities / get_top_entities -/

/-- One aggregated `(entity, entity_type, COUNT(*))` row. -/
structure TopEntity where
  entity : String
  entity_type : String
  ref_count : Nat
deriving DecidableEq

/-- Embedding of `GROUP BY entity, entity_type` with `COUNT(*)` over
`entity_metadata`. -/
def entityAgg (ms : List MentionRow) : List TopEntity :=
  ((ms.map (fun m => (m.entity, m.entity_type))).dedup).map
    (fun k => ⟨k.1, k.2, (ms.filter (fun m => m.entity == k.1 && m.entity_type == k.2)).length⟩)

/-- The shared `SELECT ... GROUP BY ... ORDER BY ref_count DESC LIMIT ?`
pipeline of `get_entities` and `get_top_entities`. -/
def entityAggSorted (s : Store) (limit : Nat) : List TopEntity :=
  (List.insertionSort (descNat TopEntity.ref_count) (entityAgg s.entity_metadata)).take limit

/-- Embedding of `MemoryDB.get_top_entities`. -/
def get_top_entities (s : Store) (limit : Nat) : List TopEntity :=
  if s.tables.entity_metadata then entityAggSorted s limit else []

/-- One `{"entity": ..., "refs": ...}` element of a `get_entities` group. -/
structure EntityRef where
  entity : String
  refs : Nat
deriving DecidableEq

/-- Embedding of `MemoryDB.get_entities`: the aggregated rows regrouped by
entity type (the `defaultdict` regrouping loop). -/
def get_entities (s : Store) (limit : Nat) : List (String × List EntityRef) :=
  if s.tables.entity_metadata then
    let rows := entityAggSorted s limit
    ((rows.map TopEntity.entity_type).dedup).map
      (fun t => (t, rows.filterMap
        (fun r => if r.entity_type == t then some (⟨r.entity, r.ref_count⟩ : EntityRef) else none)))
  else []

/-! ## get_relations -/

/-- The per-endpoint label `CASE` of `get_relations`: session summaries and
fact texts are cut to 60 characters, knowledge rows contribute the bare
`area` column, a missing source row or unknown type yields NULL. -/
def relLabel (s : Store) (ty : String) (src : Nat) : Option String :=
  if ty == "session" then
    (s.sessions.find? (fun r => r.id == src)).map (fun r => strTake 60 r.summary)
  else if ty == "knowledge" then
    (s.knowledge.find? (fun r => r.id == src)).map (fun r => r.area)
  else if ty == "fact" then
    (s.facts.find? (fun r => r.id == src)).map (fun r => strTake 60 r.fact)
  else none

/-- One row returned by `get_relations`. -/
structure LabeledRel where
  from_type : String
  from_id : Nat
  to_type : String
  to_id : Nat
  relation : String
  from_label : Option String
  to_label : Option String
deriving DecidableEq

/-- Enrich one `entry_relations` row with both endpoint labels. -/
def labelRelation (s : Store) (e : RelationRow) : LabeledRel :=
  ⟨e.from_type, e.from_id, e.to_type, e.to_id, e.relation,
   relLabel s e.from_type e.from_id, relLabel s e.to_type e.to_id⟩

/-- Embedding of `MemoryDB.get_relations`: labeled rows, newest first,
`LIMIT 100`. -/
def get_relations (s : Store) : List LabeledRel :=
  if s.tables.entry_relations then
    ((List.insertionSort (descStr RelationRow.created_at) s.entry_relations).take 100).map
      (labelRelation s)
  else []

/-- The renderers' display fallback for a relation endpoint,
`rel.get("x_label") or f"{type}:{id}"`: Python `or` replaces both a missing
and an empty label by the `type:id` placeholder. -/
def labelOrFallback (lbl : Option String) (ty : String) (src : Nat) : String :=
  match lbl with
  | some l => if l == "" then ty ++ ":" ++ Nat.repr src else l
  | none => ty ++ ":" ++ Nat.repr src

/-! ## get_co_occurrences -/

/-- One row returned by `get_co_occurrences`. -/
structure CoEdge where
  entity_a : String
  type_a : String
  entity_b : String
  type_b : String
  shared_sources : Nat
deriving DecidableEq

/-- The self-join of `entity_metadata` on `(source_type, source_id)` with
`a.id < b.id`. -/
def coPairs (ms : List MentionRow) : List (MentionRow × MentionRow) :=
  (allPairs ms ms).filter
    (fun p => p.1.source_type == p.2.source_type && p.1.source_id == p.2.source_id
      && decide (p.1.id < p.2.id))

/-- The distinct `(a.entity, b.entity)` grouping keys of the join. -/
def coKeys (ps : List (MentionRow × MentionRow)) : List (String × String) :=
  (ps.map (fun p => (p.1.entity, p.2.entity))).dedup

/-- `GROUP BY a.entity, b.entity` with `COUNT(*)` and `HAVING shared_sources
>= 2`; the bare `entity_type` columns take their value from one member pair
of the group. -/
def coEdges (ps : List (MentionRow × MentionRow)) : List CoEdge :=
  (coKeys ps).filterMap (fun k =>
    let g := ps.filter (fun p => p.1.entity == k.1 && p.2.entity == k.2)
    if 2 ≤ g.length then
      g.head?.map (fun p => ⟨k.1, p.1.entity_type, k.2, p.2.entity_type, g.length⟩)
    else none)

/-- Embedding of `MemoryDB.get_co_occurrences`. -/
def get_co_occurrences (s : Store) (limit : Nat) : List CoEdge :=
  if s.tables.entity_metadata then
    (List.insertionSort (descNat CoEdge.shared_sources)
      (coEdges (coPairs s.entity_metadata))).take limit
  else []

/-! ## get_timeline -/

/-- One timeline entry: a projected session or knowledge row. -/
structure TimelineEntry where
  id : Nat
  created_at : String
  summary : String
  type : String
deriving DecidableEq

/-- The up-to-`limit` most recent sessions, projected
(`SELECT ... ORDER BY created_at DESC LIMIT ?`). -/
def sessionEntries (s : Store) (limit : Nat) : List TimelineEntry :=
  if s.tables.sessions then
    (List.insertionSort (descStr TimelineEntry.created_at)
      (s.sessions.map (fun r => ⟨r.id, r.created_at, r.summary, "session"⟩))).take limit
  else []

/-- The up-to-`limit` most recent knowledge rows, projected with
`updated_at` as the timestamp and `area || ': ' || summary` as the summary. -/
def knowledgeEntries (s : Store) (limit : Nat) : List TimelineEntry :=
  if s.tables.knowledge then
    (List.insertionSort (descStr TimelineEntry.created_at)
      (s.knowledge.map
        (fun r => ⟨r.id, r.updated_at, r.area ++ ": " ++ r.summary, "knowledge"⟩))).take limit
  else []

/-- Embedding of `MemoryDB.get_timeline`: concatenate the two pre-truncated
fetches, sort by timestamp descending, truncate to `limit`. -/
def get_timeline (s : Store) (limit : Nat) : List TimelineEntry :=
  (List.insertionSort (descStr TimelineEntry.created_at)
    (sessionEntries s limit ++ knowledgeEntries s limit)).take limit

/-! ## get_entity_detail -/

/-- One source occurrence row of `get_entity_detail`. -/
structure SourceEntry where
  entity_type : String
  source_type : String
  source_id : Nat
  context : Option String
deriving DecidableEq

/-- The context-label `CASE` of the sources query: session summaries and fact
texts cut to 80 characters, knowledge rows contribute
`area || ': ' || SUBSTR(summary, 1, 60)`. -/
def detailContext (s : Store) (ty : String) (src : Nat) : Option String :=
  if ty == "session" then
    (s.sessions.find? (fun r => r.id == src)).map (fun r => strTake 80 r.summary)
  else if ty == "knowledge" then
    (s.knowledge.find? (fun r => r.id == src)).map
      (fun r => r.area ++ ": " ++ strTake 60 r.summary)
  else if ty == "fact" then
    (s.facts.find? (fun r => r.id == src)).map (fun r => strTake 80 r.fact)
  else none

/-- One relation row of `get_entity_detail` (selected without labels). -/
structure RelRef where
  from_type : String
  from_id : Nat
  to_type : String
  to_id : Nat
  relation : String
deriving DecidableEq

/-- One co-occurring-entity row of `get_entity_detail`. -/
structure CoDetailRow where
  entity : String
  entity_type : String
  shared : Nat
deriving DecidableEq

/-- The result shape of `get_entity_detail`. -/
structure EntityDetail where
  entity : String
  sources : List SourceEntry
  relations : List RelRef
  co_occurring : List CoDetailRow
deriving DecidableEq

/-- The sources query: mentions whose entity matches `LIKE '%' || q || '%'`,
newest first, each with its context label. -/
def detailSources (s : Store) (q : String) : List SourceEntry :=
  (List.insertionSort (descStr MentionRow.created_at)
    (s.entity_metadata.filter (fun m => likeMatch (likePat q) m.entity.data))).map
    (fun m => ⟨m.entity_type, m.source_type, m.source_id,
      detailContext s m.source_type m.source_id⟩)

/-- The relations query: edges whose either endpoint references any candidate
source, `LIMIT 20`; issued only when relations are available and at least one
source matched. -/
def detailRelations (s : Store) (srcs : List SourceEntry) : List RelRef :=
  if s.tables.entry_relations && !srcs.isEmpty then
    ((s.entry_relations.filter (fun e => srcs.any (fun c =>
        (e.from_type == c.source_type && e.from_id == c.source_id)
        || (e.to_type == c.source_type && e.to_id == c.source_id)))).map
      (fun e => (⟨e.from_type, e.from_id, e.to_type, e.to_id, e.relation⟩ : RelRef))).take 20
  else []

/-- The co-occurring self-join of the detail view: pairs sharing a source with
`a.entity != b.entity` (no id constraint) and `a` matching the query. -/
def coDetailPairs (q : String) (ms : List MentionRow) : List (MentionRow × MentionRow) :=
  (allPairs ms ms).filter (fun p =>
    p.1.source_type == p.2.source_type && p.1.source_id == p.2.source_id
    && p.1.entity != p.2.entity && likeMatch (likePat q) p.1.entity.data)

/-- `GROUP BY b.entity, b.entity_type` with `COUNT(*)` over the detail
self-join. -/
def coDetailAgg (q : String) (ms : List MentionRow) : List CoDetailRow :=
  let ps := coDetailPairs q ms
  ((ps.map (fun p => (p.2.entity, p.2.entity_type))).dedup).map
    (fun k => ⟨k.1, k.2,
      (ps.filter (fun p => p.2.entity == k.1 && p.2.entity_type == k.2)).length⟩)

/-- Embedding of `MemoryDB.get_entity_detail`. -/
def get_entity_detail (s : Store) (entity_name : String) : EntityDetail :=
  if s.tables.entity_metadata then
    let srcs := detailSources s entity_name
    { entity := entity_name
      sources := srcs
      relations := detailRelations s srcs
      co_occurring := (List.insertionSort (descNat CoDetailRow.shared)
        (coDetailAgg entity_name s.entity_metadata)).take 20 }
  else { entity := entity_name, sources := [], relations := [], co_occurring := [] }

/-! ## The stateful view of `MemoryDB`

The Python methods run against a connection object; the embedding threads the
object state explicitly, so each method returns its result together with the
object state it leaves behind. The method bodies above only issue `SELECT`
statements and assign no attribute, so each wrapper returns the state it was
given. -/

/-- The `MemoryDB` object: the path it was opened on and the connection's
read-only view of the store (the `tables` flags live inside `Store`). -/
structure MemoryDB where
  db_path : String
  store : Store
deriving DecidableEq

/-- Method call `db.get_stats()`: result plus the object state afterwards. -/
def MemoryDB.get_stats_call (db : MemoryDB) : List (String × Nat) × MemoryDB :=
  (get_stats db.store, db)

/-- Method call `db.get_entities(limit)`. -/
def MemoryDB.get_entities_call (db : MemoryDB) (limit : Nat) :
    List (String × List EntityRef) × MemoryDB :=
  (get_entities db.store limit, db)

/-- Method call `db.get_top_entities(limit)`. -/
def MemoryDB.get_top_entities_call (db : MemoryDB) (limit : Nat) : List TopEntity × MemoryDB :=
  (get_top_entities db.store limit, db)

/-- Method call `db.get_relations()`. -/
def MemoryDB.get_relations_call (db : MemoryDB) : List LabeledRel × MemoryDB :=
  (get_relations db.store, db)

/-- Method call `db.get_co_occurrences(limit)`. -/
def MemoryDB.get_co_occurrences_call (db : MemoryDB) (limit : Nat) : List CoEdge × MemoryDB :=
  (get_co_occurrences db.store limit, db)

/-- Method call `db.get_timeline(limit)`. -/
def MemoryDB.get_timeline_call (db : MemoryDB) (limit : Nat) : List TimelineEntry × MemoryDB :=
  (get_timeline db.store limit, db)

/-- Method call `db.get_entity_detail(name)`. -/
def MemoryDB.get_entity_detail_call (db : MemoryDB) (entity_name : String) :
    EntityDetail × MemoryDB :=
  (get_entity_detail db.store entity_name, db)

/-! ## Concrete stores used by witnesses and counterexamples -/

/-- A store with all tables available and the given rows. -/
def mkStore (ses : List SessionRow) (kn : List KnowledgeRow) (fa : List FactRow)
    (em : List MentionRow) (er : List RelationRow) : Store :=
  ⟨⟨true, true, true, true, true, true⟩, ses, kn, fa, em, er⟩

/-- The C1 scenario parameterized by the four mention ids: "auth" and "jwt"
each mentioned once in knowledge#1 and once in knowledge#2. -/
def storeC1ids (i1 i2 i3 i4 : Nat) : Store :=
  mkStore [] [] []
    [⟨i1, "auth", "concept", "knowledge", 1, "t"⟩,
     ⟨i2, "jwt", "concept", "knowledge", 1, "t"⟩,
     ⟨i3, "auth", "concept", "knowledge", 2, "t"⟩,
     ⟨i4, "jwt", "concept", "knowledge", 2, "t"⟩] []

/-- One source record holding three mention rows of the same entity name. -/
def storeSelfPair : Store :=
  mkStore [] [] []
    [⟨1, "auth", "concept", "knowledge", 1, "t"⟩,
     ⟨2, "auth", "concept", "knowledge", 1, "t"⟩,
     ⟨3, "auth", "concept", "knowledge", 1, "t"⟩] []

/-- Four sources; the mention ids order "auth" before "jwt" in the first two
and "jwt" before "auth" in the last two. -/
def storeBothOrients : Store :=
  mkStore [] [] []
    [⟨1, "auth", "concept", "knowledge", 1, "t"⟩,
     ⟨2, "jwt", "concept", "knowledge", 1, "t"⟩,
     ⟨3, "auth", "concept", "knowledge", 2, "t"⟩,
     ⟨4, "jwt", "concept", "knowledge", 2, "t"⟩,
     ⟨5, "jwt", "concept", "knowledge", 3, "t"⟩,
     ⟨6, "auth", "concept", "knowledge", 3, "t"⟩,
     ⟨7, "jwt", "concept", "knowledge", 4, "t"⟩,
     ⟨8, "auth", "concept", "knowledge", 4, "t"⟩] []

/-- A knowledge-area name of 61 characters. -/
def longArea : String := ⟨List.replicate 61 'a'⟩

/-- A store whose only relation edge points at the long-named knowledge row. -/
def storeLongArea : Store :=
  mkStore [] [⟨7, longArea, "s", "t"⟩] [] []
    [⟨"knowledge", 7, "knowledge", 7, "rel", "t"⟩]

/-- A store with one mention of the lower-case entity name "auth". -/
def storeAuth : Store :=
  mkStore [] [] [] [⟨1, "auth", "concept", "knowledge", 1, "t"⟩] []

/-- A store with one session and two mention rows of (auth, concept). -/
def storeTwoAuth : Store :=
  mkStore [] [] []
    [⟨1, "auth", "concept", "knowledge", 1, "t"⟩,
     ⟨2, "auth", "concept", "knowledge", 2, "t"⟩] []

/-- A relation edge from session#5 to the deleted fact#9. -/
def storeDangling : Store :=
  mkStore [⟨5, "t1", "session summary"⟩] [] [] []
    [⟨"session", 5, "fact", 9, "references", "t2"⟩]

/-- A store exercising both label contexts: a session labeled "hello" and a
mention of entity "x" inside it. -/
def storeHello : Store :=
  mkStore [⟨5, "t1", "hello"⟩] [] []
    [⟨1, "x", "concept", "session", 5, "t1"⟩]
    [⟨"session", 5, "session", 5, "rel", "t2"⟩]

/-! ## Generic pipeline lemmas -/

theorem mem_of_mem_sortTake {α : Type} {r : α → α → Prop} [DecidableRel r]
    {l : List α} {n : Nat} {a : α}
    (h : a ∈ (List.insertionSort r l).take n) : a ∈ l :=
  (List.perm_insertionSort r l).mem_iff.mp (List.mem_of_mem_take h)

theorem sortTake_all {α : Type} {r : α → α → Prop} [DecidableRel r]
    {l : List α} {n : Nat} (h : l.length ≤ n) :
    (List.insertionSort r l).take n = List.insertionSort r l :=
  List.take_of_length_le (by rw [(List.perm_insertionSort r l).length_eq]; exact h)

theorem map_filterMap_key {α β γ : Type} (f : α → Option β) (key : β → γ) (pr : α → γ)
    (hf : ∀ a b, f a = some b → key b = pr a) :
    ∀ l : List α, List.Sublist ((l.filterMap f).map key) (l.map pr) := by
  intro l
  induction l with
  | nil => simp
  | cons a l ih =>
    cases hfa : f a with
    | none =>
      rw [List.filterMap_cons, hfa, List.map_cons]
      exact ih.cons (pr a)
    | some b =>
      rw [List.filterMap_cons, hfa, List.map_cons, List.map_cons, hf a b hfa]
      exact ih.cons₂ (pr a)

/-! ## Lemmas about the co-occurrence pipeline -/

theorem coEdge_of_group {g : List (MentionRow × MentionRow)} {k : String × String} {e : CoEdge}
    (h : (if 2 ≤ g.length then
            g.head?.map
              (fun p => (⟨k.1, p.1.entity_type, k.2, p.2.entity_type, g.length⟩ : CoEdge))
          else none) = some e) :
    2 ≤ g.length ∧ ∃ p ∈ g, e = ⟨k.1, p.1.entity_type, k.2, p.2.entity_type, g.length⟩ := by
  split at h
  · rename_i h2
    rcases Option.map_eq_some'.mp h with ⟨p, hp, he⟩
    exact ⟨h2, p, List.mem_of_mem_head? (Option.mem_def.mpr hp), he.symm⟩
  · simp at h

theorem coEdges_mem_spec {ps : List (MentionRow × MentionRow)} {e : CoEdge}
    (h : e ∈ coEdges ps) :
    e.shared_sources =
      (ps.filter (fun p => p.1.entity == e.entity_a && p.2.entity == e.entity_b)).length ∧
    2 ≤ e.shared_sources ∧
    ∃ p ∈ ps, p.1.entity = e.entity_a ∧ p.2.entity = e.entity_b ∧
      p.1.entity_type = e.type_a ∧ p.2.entity_type = e.type_b := by
  rcases List.mem_filterMap.mp h with ⟨k, hk, hfk⟩
  dsimp only at hfk
  rcases coEdge_of_group hfk with ⟨h2, p, hpg, he⟩
  subst he
  have hpp := List.mem_filter.mp hpg
  have hnames := hpp.2
  rw [Bool.and_eq_true] at hnames
  have h1 : p.1.entity = k.1 := by simpa using hnames.1
  have h2n : p.2.entity = k.2 := by simpa using hnames.2
  exact ⟨rfl, h2, p, hpp.1, h1, h2n, rfl, rfl⟩

theorem coEdges_keys_nodup (ps : List (MentionRow × MentionRow)) :
    ((coEdges ps).map (fun e => (e.entity_a, e.entity_b))).Nodup := by
  have hsub := map_filterMap_key
    (fun k =>
      let g := ps.filter (fun p => p.1.entity == k.1 && p.2.entity == k.2)
      if 2 ≤ g.length then
        g.head?.map (fun p => (⟨k.1, p.1.entity_type, k.2, p.2.entity_type, g.length⟩ : CoEdge))
      else none)
    (fun e => (e.entity_a, e.entity_b)) id
    (by
      intro k e hke
      dsimp only at hke
      rcases coEdge_of_group hke with ⟨_, p, _, he⟩
      subst he; rfl)
    (coKeys ps)
  rw [List.map_id] at hsub
  exact List.Nodup.sublist hsub (List.nodup_dedup _)

theorem get_co_occurrences_keys_nodup (s : Store) (limit : Nat) :
    ((get_co_occurrences s limit).map (fun e => (e.entity_a, e.entity_b))).Nodup := by
  unfold get_co_occurrences
  split
  · rw [List.map_take]
    have hperm :
        List.Perm
          ((List.insertionSort (descNat CoEdge.shared_sources)
            (coEdges (coPairs s.entity_metadata))).map (fun e => (e.entity_a, e.entity_b)))
          ((coEdges (coPairs s.entity_metadata)).map (fun e => (e.entity_a, e.entity_b))) :=
      (List.perm_insertionSort _ _).map _
    have hnd := hperm.nodup_iff.mpr (coEdges_keys_nodup _)
    exact List.Nodup.sublist (List.take_sublist _ _) hnd
  · simp

theorem mem_coEdges_of_mem_result {s : Store} {limit : Nat} {e : CoEdge}
    (h : e ∈ get_co_occurrences s limit) :
    e ∈ coEdges (coPairs s.entity_metadata) := by
  unfold get_co_occurrences at h
  split at h
  · exact mem_of_mem_sortTake h
  · simp at h

/-! ## Claims C2, C3, C6, C9 -/

/-- Claim C2 (code bug): the claim says edges returned by `get_co_occurrences`
never have `entity_a = entity_b`; the join only requires `a.id < b.id`, so
distinct mention rows of the same name pair with each other and the self-pair
("auth", "auth") is in fact reported. This theorem evaluates the code on the
failing input: one knowledge source holding three mention rows of "auth". -/
theorem co_occurrences_report_self_pairs :
    get_co_occurrences storeSelfPair 100 =
      [⟨"auth", "concept", "auth", "concept", 3⟩] := by decide

/-- Claim C3 counterexample: with mention ids ordering "auth" before "jwt" in
sources knowledge#1/#2 but after it in knowledge#3/#4, the unordered pair is
reported twice, once per orientation. -/
theorem co_occurrences_reversed_pair_cex :
    get_co_occurrences storeBothOrients 100 =
      [⟨"auth", "concept", "jwt", "concept", 2⟩,
       ⟨"jwt", "concept", "auth", "concept", 2⟩] := by decide

/-- Claim C3 (amended): the list returned by `get_co_occurrences` contains
each ORDERED pair of entity names (as oriented by mention-id order) at most
once; the same unordered pair may still appear in both orientations when the
mention ids order the two names differently in different shared sources. -/
theorem co_occurrences_oriented_keys_unique (s : Store) (limit : Nat) :
    ((get_co_occurrences s limit).map (fun e => (e.entity_a, e.entity_b))).Nodup :=
  get_co_occurrences_keys_nodup s limit

/-- Claim C6: `get_timeline limit` is the pre-truncated most-recent session
and knowledge fetches concatenated, sorted by timestamp descending and cut to
`limit`; hence adjacent entries are in descending timestamp order and the
result has at most `limit` entries. -/
theorem get_timeline_merge_sorted_bounded (s : Store) (limit : Nat) :
    get_timeline s limit =
      (List.insertionSort (descStr TimelineEntry.created_at)
        (sessionEntries s limit ++ knowledgeEntries s limit)).take limit ∧
    List.Pairwise (fun a b => strLe b.created_at a.created_at) (get_timeline s limit) ∧
    (get_timeline s limit).length ≤ limit := by
  refine ⟨rfl, ?_, ?_⟩
  · have hs : List.Sorted (descStr TimelineEntry.created_at)
        (List.insertionSort (descStr TimelineEntry.created_at)
          (sessionEntries s limit ++ knowledgeEntries s limit)) :=
      List.sorted_insertionSort _ _
    exact hs.sublist (List.take_sublist _ _)
  · show ((List.insertionSort _ _).take limit).length ≤ limit
    rw [List.length_take]
    exact min_le_left _ _

/-- Claim C9: every derivation method, modelled as an explicit state-passing
call on the `MemoryDB` object, leaves the object state unchanged and returns
the same result when issued twice against the unchanged store. -/
theorem memorydb_queries_pure (db : MemoryDB) (limit : Nat) (q : String) :
    (db.get_stats_call.2 = db ∧
      db.get_stats_call.1 = (db.get_stats_call.2).get_stats_call.1) ∧
    ((db.get_entities_call limit).2 = db ∧
      (db.get_entities_call limit).1 =
        ((db.get_entities_call limit).2.get_entities_call limit).1) ∧
    ((db.get_top_entities_call limit).2 = db ∧
      (db.get_top_entities_call limit).1 =
        ((db.get_top_entities_call limit).2.get_top_entities_call limit).1) ∧
    (db.get_relations_call.2 = db ∧
      db.get_relations_call.1 = (db.get_relations_call.2).get_relations_call.1) ∧
    ((db.get_co_occurrences_call limit).2 = db ∧
      (db.get_co_occurrences_call limit).1 =
        ((db.get_co_occurrences_call limit).2.get_co_occurrences_call limit).1) ∧
    ((db.get_timeline_call limit).2 = db ∧
      (db.get_timeline_call limit).1 =
        ((db.get_timeline_call limit).2.get_timeline_call limit).1) ∧
    ((db.get_entity_detail_call q).2 = db ∧
      (db.get_entity_detail_call q).1 =
        ((db.get_entity_detail_call q).2.get_entity_detail_call q).1) :=
  ⟨⟨rfl, rfl⟩, ⟨rfl, rfl⟩, ⟨rfl, rfl⟩, ⟨rfl, rfl⟩, ⟨rfl, rfl⟩, ⟨rfl, rfl⟩, ⟨rfl, rfl⟩⟩

/-! ## Lemmas about the entity aggregation -/

theorem entityAgg_spec {ms : List MentionRow} {t : TopEntity} (h : t ∈ entityAgg ms) :
    t.ref_count =
      (ms.filter (fun m => m.entity == t.entity && m.entity_type == t.entity_type)).length ∧
    1 ≤ t.ref_count := by
  rcases List.mem_map.mp h with ⟨k, hk, rfl⟩
  refine ⟨rfl, ?_⟩
  rcases List.mem_map.mp (List.mem_dedup.mp hk) with ⟨m, hm, hkm⟩
  have hmem : m ∈ ms.filter (fun m' => m'.entity == k.1 && m'.entity_type == k.2) := by
    refine List.mem_filter.mpr ⟨hm, ?_⟩
    rw [← hkm]
    simp
  exact List.length_pos_of_mem hmem

/-- Claim C5: reported reference counts in `get_entities` and
`get_top_entities` equal the number of `entity_metadata` rows with the same
(entity, entity type) pair, and are never zero. -/
theorem entity_counts_exact (s : Store) (limit : Nat) :
    (∀ p ∈ get_entities s limit, ∀ it ∈ p.2,
      it.refs = (s.entity_metadata.filter
        (fun m => m.entity == it.entity && m.entity_type == p.1)).length ∧
      1 ≤ it.refs) ∧
    (∀ t ∈ get_top_entities s limit,
      t.ref_count = (s.entity_metadata.filter
        (fun m => m.entity == t.entity && m.entity_type == t.entity_type)).length ∧
      1 ≤ t.ref_count) := by
  constructor
  · intro p hp it hit
    unfold get_entities at hp
    split at hp
    · dsimp only at hp
      rcases List.mem_map.mp hp with ⟨ty, hty, rfl⟩
      dsimp only at hit
      rcases List.mem_filterMap.mp hit with ⟨r, hr, hfr⟩
      split at hfr
      · rename_i hty2
        have hit_eq : (⟨r.entity, r.ref_count⟩ : EntityRef) = it := Option.some.inj hfr
        have hr2 : r ∈ entityAgg s.entity_metadata := mem_of_mem_sortTake hr
        have hspec := entityAgg_spec hr2
        have hty3 : r.entity_type = ty := by simpa using hty2
        subst hit_eq
        dsimp only
        rw [← hty3]
        exact hspec
      · simp at hfr
    · simp at hp
  · intro t ht
    unfold get_top_entities at ht
    split at ht
    · exact entityAgg_spec (mem_of_mem_sortTake ht)
    · simp at ht

/-- Claim C5 witness: the counts reported on a concrete two-mention store. -/
theorem entity_counts_exact_witness :
    ((⟨"auth", 2⟩ : EntityRef).refs =
      (storeTwoAuth.entity_metadata.filter
        (fun m => m.entity == (⟨"auth", 2⟩ : EntityRef).entity &&
          m.entity_type == "concept")).length ∧
      1 ≤ (⟨"auth", 2⟩ : EntityRef).refs) ∧
    ((⟨"auth", "concept", 2⟩ : TopEntity).ref_count =
      (storeTwoAuth.entity_metadata.filter
        (fun m => m.entity == (⟨"auth", "concept", 2⟩ : TopEntity).entity &&
          m.entity_type == (⟨"auth", "concept", 2⟩ : TopEntity).entity_type)).length ∧
      1 ≤ (⟨"auth", "concept", 2⟩ : TopEntity).ref_count) :=
  ⟨(entity_counts_exact storeTwoAuth 50).1 ("concept", [⟨"auth", 2⟩]) (by decide)
      ⟨"auth", 2⟩ (by decide),
   (entity_counts_exact storeTwoAuth 15).2 ⟨"auth", "concept", 2⟩ (by decide)⟩

/-- Claim C10: `get_co_occurrences` groups by the two entity NAMES only —
each name pair appears at most once, the tally counts every id-ordered joined
pair with those names regardless of entity types, and the reported types come
from one member pair of the group. -/
theorem co_occurrences_keyed_by_names (s : Store) (limit : Nat) :
    ((get_co_occurrences s limit).map (fun e => (e.entity_a, e.entity_b))).Nodup ∧
    ∀ e ∈ get_co_occurrences s limit,
      e.shared_sources = ((coPairs s.entity_metadata).filter
        (fun p => p.1.entity == e.entity_a && p.2.entity == e.entity_b)).length ∧
      ∃ p ∈ coPairs s.entity_metadata,
        p.1.entity = e.entity_a ∧ p.2.entity = e.entity_b ∧
        p.1.entity_type = e.type_a ∧ p.2.entity_type = e.type_b := by
  refine ⟨get_co_occurrences_keys_nodup s limit, ?_⟩
  intro e he
  have h := coEdges_mem_spec (mem_coEdges_of_mem_result he)
  exact ⟨h.1, h.2.2⟩

/-- Claim C10 witness: the reported edge of a concrete store, its tally and a
member pair carrying the reported types. -/
theorem co_occurrences_keyed_by_names_witness :
    (⟨"auth", "concept", "jwt", "concept", 2⟩ : CoEdge).shared_sources =
      ((coPairs (storeC1ids 1 2 3 4).entity_metadata).filter
        (fun p => p.1.entity == "auth" && p.2.entity == "jwt")).length ∧
    ∃ p ∈ coPairs (storeC1ids 1 2 3 4).entity_metadata,
      p.1.entity = "auth" ∧ p.2.entity = "jwt" ∧
      p.1.entity_type = "concept" ∧ p.2.entity_type = "concept" :=
  (co_occurrences_keyed_by_names (storeC1ids 1 2 3 4) 100).2
    ⟨"auth", "concept", "jwt", "concept", 2⟩ (by decide)

/-! ## Label-length lemmas -/

theorem relLabel_session_fact_length {s : Store} {ty : String} {src : Nat} {l : String}
    (hty : ty = "session" ∨ ty = "fact") (h : relLabel s ty src = some l) :
    l.length ≤ 60 := by
  rcases hty with rfl | rfl
  · rw [show relLabel s "session" src =
        (s.sessions.find? (fun r => r.id == src)).map (fun r => strTake 60 r.summary)
      from rfl] at h
    rcases Option.map_eq_some'.mp h with ⟨r, _, hl⟩
    rw [← hl]
    exact strTake_length_le _ _
  · rw [show relLabel s "fact" src =
        (s.facts.find? (fun r => r.id == src)).map (fun r => strTake 60 r.fact)
      from rfl] at h
    rcases Option.map_eq_some'.mp h with ⟨r, _, hl⟩
    rw [← hl]
    exact strTake_length_le _ _

theorem detailContext_session_fact_length {s : Store} {ty : String} {src : Nat} {l : String}
    (hty : ty = "session" ∨ ty = "fact") (h : detailContext s ty src = some l) :
    l.length ≤ 80 := by
  rcases hty with rfl | rfl
  · rw [show detailContext s "session" src =
        (s.sessions.find? (fun r => r.id == src)).map (fun r => strTake 80 r.summary)
      from rfl] at h
    rcases Option.map_eq_some'.mp h with ⟨r, _, hl⟩
    rw [← hl]
    exact strTake_length_le _ _
  · rw [show detailContext s "fact" src =
        (s.facts.find? (fun r => r.id == src)).map (fun r => strTake 80 r.fact)
      from rfl] at h
    rcases Option.map_eq_some'.mp h with ⟨r, _, hl⟩
    rw [← hl]
    exact strTake_length_le _ _

/-- Claim C4 counterexample: a knowledge row whose area name has 61
characters produces a `get_relations` endpoint label longer than the claimed
60-character budget — knowledge labels are taken from the bare `area` column
and never truncated. -/
theorem relations_label_exceeds_budget_cex :
    60 < longArea.length ∧
    (get_relations storeLongArea).map (fun r => r.from_label) = [some longArea] := by
  decide

/-- Claim C4 (amended): endpoint and context labels derived from SESSION and
FACT rows are truncated to the fixed budget (60 characters in
`get_relations`, 80 in `get_entity_detail` sources); labels derived from
knowledge-area names are not truncated. -/
theorem labels_truncated_amended :
    (∀ (s : Store) (r : LabeledRel), r ∈ get_relations s →
      (∀ l, (r.from_type = "session" ∨ r.from_type = "fact") → r.from_label = some l →
        l.length ≤ 60) ∧
      (∀ l, (r.to_type = "session" ∨ r.to_type = "fact") → r.to_label = some l →
        l.length ≤ 60)) ∧
    (∀ (s : Store) (q : String) (c : SourceEntry), c ∈ (get_entity_detail s q).sources →
      (c.source_type = "session" ∨ c.source_type = "fact") →
      ∀ l, c.context = some l → l.length ≤ 80) := by
  constructor
  · intro s r hr
    have hr' : ∃ e, r = labelRelation s e := by
      unfold get_relations at hr
      split at hr
      · rcases List.mem_map.mp hr with ⟨e, _, he⟩
        exact ⟨e, he.symm⟩
      · simp at hr
    rcases hr' with ⟨e, rfl⟩
    exact ⟨fun l hty hl => relLabel_session_fact_length hty hl,
      fun l hty hl => relLabel_session_fact_length hty hl⟩
  · intro s q c hc hty l hl
    have hc' : ∃ m : MentionRow, c = (⟨m.entity_type, m.source_type, m.source_id,
        detailContext s m.source_type m.source_id⟩ : SourceEntry) := by
      unfold get_entity_detail at hc
      split at hc
      · dsimp only at hc
        rcases List.mem_map.mp hc with ⟨m, _, hm⟩
        exact ⟨m, hm.symm⟩
      · simp at hc
    rcases hc' with ⟨m, rfl⟩
    exact detailContext_session_fact_length hty hl

/-- Claim C4 witness: the 60- and 80-character bounds instantiated on a store
whose session summary is "hello". -/
theorem labels_truncated_amended_witness :
    ("hello" : String).length ≤ 60 ∧ ("hello" : String).length ≤ 80 :=
  ⟨((labels_truncated_amended.1 storeHello
      (labelRelation storeHello ⟨"session", 5, "session", 5, "rel", "t2"⟩)
      (by decide)).1 "hello" (Or.inl rfl) (by decide)),
   (labels_truncated_amended.2 storeHello "x" ⟨"concept", "session", 5, some "hello"⟩
      (by decide) (Or.inl rfl) "hello" (by decide))⟩

/-- Claim C7: a relation edge whose target row was deleted is still returned
by `get_relations` — with an absent (`none`) label for the dangling endpoint —
and the renderer fallback displays the `type:id` placeholder for it. -/
theorem relations_dangling_endpoint (s : Store) (e : RelationRow)
    (he : e ∈ s.entry_relations) (hflag : s.tables.entry_relations = true)
    (hlen : s.entry_relations.length ≤ 100) (hty : e.to_type = "fact")
    (hmiss : s.facts.find? (fun r => r.id == e.to_id) = none) :
    labelRelation s e ∈ get_relations s ∧
    (labelRelation s e).to_label = none ∧
    labelOrFallback (labelRelation s e).to_label (labelRelation s e).to_type
      (labelRelation s e).to_id = "fact:" ++ Nat.repr e.to_id := by
  have hlabel : relLabel s e.to_type e.to_id = none := by
    rw [hty]
    rw [show relLabel s "fact" e.to_id =
        (s.facts.find? (fun r => r.id == e.to_id)).map (fun r => strTake 60 r.fact)
      from rfl]
    rw [hmiss]
    rfl
  refine ⟨?_, hlabel, ?_⟩
  · unfold get_relations
    rw [if_pos hflag, sortTake_all hlen]
    exact List.mem_map_of_mem _ ((List.perm_insertionSort _ _).mem_iff.mpr he)
  · show labelOrFallback (relLabel s e.to_type e.to_id) e.to_type e.to_id = _
    rw [hlabel, hty]
    rfl

/-- Claim C7 witness: the session#5 → fact#9 edge with fact#9 absent. -/
theorem relations_dangling_endpoint_witness :
    labelRelation storeDangling ⟨"session", 5, "fact", 9, "references", "t2"⟩ ∈
      get_relations storeDangling ∧
    (labelRelation storeDangling ⟨"session", 5, "fact", 9, "references", "t2"⟩).to_label =
      none ∧
    labelOrFallback
      (labelRelation storeDangling ⟨"session", 5, "fact", 9, "references", "t2"⟩).to_label
      (labelRelation storeDangling ⟨"session", 5, "fact", 9, "references", "t2"⟩).to_type
      (labelRelation storeDangling ⟨"session", 5, "fact", 9, "references", "t2"⟩).to_id =
      "fact:" ++ Nat.repr 9 :=
  relations_dangling_endpoint storeDangling ⟨"session", 5, "fact", 9, "references", "t2"⟩
    (by decide) rfl (by decide) rfl rfl

/-! ## Lemmas for empty detail results -/

theorem detailSources_empty {s : Store} {q : String}
    (h : ∀ m ∈ s.entity_metadata, likeMatch (likePat q) m.entity.data = false) :
    detailSources s q = [] := by
  unfold detailSources
  have hfil : s.entity_metadata.filter (fun m => likeMatch (likePat q) m.entity.data) = [] :=
    List.filter_eq_nil_iff.mpr (fun m hm => by simp [h m hm])
  rw [hfil]
  rfl

theorem coDetailPairs_empty {q : String} {ms : List MentionRow}
    (h : ∀ m ∈ ms, likeMatch (likePat q) m.entity.data = false) :
    coDetailPairs q ms = [] := by
  unfold coDetailPairs
  apply List.filter_eq_nil_iff.mpr
  intro p hp
  simp [h p.1 (mem_allPairs hp).1]

/-- Claim C8 counterexample: SQLite `LIKE` is case-insensitive on ASCII, so
the query "AUTH" — not a case-sensitive substring of any stored entity name —
still matches the mention "auth" and yields a non-empty sources list. -/
theorem entity_detail_case_insensitive_cex :
    isSubstrChk "AUTH".data "auth".data = false ∧
    (get_entity_detail storeAuth "AUTH").sources ≠ [] := by decide

/-- Claim C8 (amended): when the `LIKE` pattern built from the query — a
case-insensitive substring match for wildcard-free queries — matches no
stored entity name, `get_entity_detail` returns empty sources, relations and
co-occurring lists, the explicit not-found shape. -/
theorem entity_detail_no_match_empty (s : Store) (q : String)
    (h : ∀ m ∈ s.entity_metadata, likeMatch (likePat q) m.entity.data = false) :
    (get_entity_detail s q).sources = [] ∧ (get_entity_detail s q).relations = [] ∧
    (get_entity_detail s q).co_occurring = [] := by
  unfold get_entity_detail
  split
  · dsimp only
    have hsrc : detailSources s q = [] := detailSources_empty h
    have hagg : coDetailAgg q s.entity_metadata = [] := by
      unfold coDetailAgg
      rw [coDetailPairs_empty h]
      rfl
    refine ⟨hsrc, ?_, ?_⟩
    · rw [hsrc]
      simp [detailRelations]
    · rw [hagg]
      rfl
  · exact ⟨rfl, rfl, rfl⟩

/-- Claim C8 witness: a query matching nothing on a concrete store. -/
theorem entity_detail_no_match_empty_witness :
    (get_entity_detail storeAuth "zzz").sources = [] ∧
    (get_entity_detail storeAuth "zzz").relations = [] ∧
    (get_entity_detail storeAuth "zzz").co_occurring = [] :=
  entity_detail_no_match_empty storeAuth "zzz" (by decide)

/-- Claim C1 counterexample: the same four mentions of "auth" and "jwt" in
knowledge#1 and knowledge#2, but with ids placing "auth" before "jwt" in one
source and after it in the other; the two shared sources then fall into
opposite join orientations, each oriented group has tally 1, and no edge at
all is reported — not the claimed edge with shared_sources = 2. -/
theorem co_occurrences_id_dependent_cex :
    get_co_occurrences (storeC1ids 1 2 4 3) 100 = [] := by decide

/-- Claim C1 (amended): the ("auth", "jwt") edge with shared_sources = 2 is
returned when the mention ids order "auth" below "jwt" within both shared
sources; the tally counts id-ordered joined mention pairs per name
orientation, not distinct shared (source type, source id) pairs for an
arbitrary id assignment. -/
theorem co_occurrences_consistent_ids (i1 i2 i3 i4 : Nat)
    (h12 : i1 < i2) (h34 : i3 < i4) :
    get_co_occurrences (storeC1ids i1 i2 i3 i4) 100 =
      [⟨"auth", "concept", "jwt", "concept", 2⟩] := by
  have d12 : decide (i1 < i2) = true := decide_eq_true h12
  have d34 : decide (i3 < i4) = true := decide_eq_true h34
  have d21 : decide (i2 < i1) = false := decide_eq_false (by omega)
  have d43 : decide (i4 < i3) = false := decide_eq_false (by omega)
  have d11 : decide (i1 < i1) = false := decide_eq_false (by omega)
  have d22 : decide (i2 < i2) = false := decide_eq_false (by omega)
  have d33 : decide (i3 < i3) = false := decide_eq_false (by omega)
  have d44 : decide (i4 < i4) = false := decide_eq_false (by omega)
  have hpairs : coPairs (storeC1ids i1 i2 i3 i4).entity_metadata =
      [(⟨i1, "auth", "concept", "knowledge", 1, "t"⟩,
        ⟨i2, "jwt", "concept", "knowledge", 1, "t"⟩),
       (⟨i3, "auth", "concept", "knowledge", 2, "t"⟩,
        ⟨i4, "jwt", "concept", "knowledge", 2, "t"⟩)] := by
    simp [coPairs, allPairs, storeC1ids, mkStore, d12, d34, d21, d43, d11, d22, d33, d44]
  unfold get_co_occurrences
  rw [if_pos (show (storeC1ids i1 i2 i3 i4).tables.entity_metadata = true from rfl), hpairs]
  rfl

/-- Claim C1 witness: the amended statement at the concrete ids 1, 2, 3, 4. -/
theorem co_occurrences_consistent_ids_witness :
    get_co_occurrences (storeC1ids 1 2 3 4) 100 =
      [⟨"auth", "concept", "jwt", "concept", 2⟩] :=
  co_occurrences_consistent_ids 1 2 3 4 (by decide) (by decide)
